import Mathlib

/-!
Verification of the Hookdeck/Shopify festive-notifications backend
(`app/helpers/hookdeck-publisher.ts` and the order-created webhook route)
against its specification. The TypeScript functions are shallowly embedded
as Lean functions; JavaScript-specific behaviours (optional chaining,
truthiness of `||` and `!`, `JSON.stringify` dropping `undefined`) are
modelled explicitly.
-/

/-- JSON values, as produced by `response.json()` / consumed by
`JSON.stringify`. `null` is a real value, distinct from the absence of a
field (JavaScript `undefined`), which we model with `Option`. -/
inductive Json where
  | null : Json
  | str : String → Json
  | num : Int → Json
  | bool : Bool → Json
  | arr : List Json → Json
  | obj : List (String × Json) → Json
deriving BEq

/-- One step of JavaScript optional-chaining property access `v?.key`:
`undefined`/`null` short-circuit to `undefined`; property access on an
object looks the key up (a present `null` value stays `null`); property
access on any other value yields `undefined`. -/
def chainStep (v : Option Json) (key : String) : Option Json :=
  match v with
  | none => none
  | some Json.null => none
  | some (Json.obj fields) => fields.lookup key
  | some _ => none

/-- JavaScript optional chain `v?.k₁?.k₂?...` over a list of keys. -/
def jsOptChain (v : Json) (keys : List String) : Option Json :=
  keys.foldl chainStep (some v)

/-- JavaScript truthiness of a possibly-absent string value
(`undefined`, `null` and `""` are falsy). -/
def jsTruthyStr : Option String → Bool
  | none => false
  | some s => s ≠ ""

/-- JavaScript `a || b` on possibly-absent strings: `a` when truthy,
otherwise `b`. Embeds `shopDomain || order.shop_domain || ""`. -/
def jsOrStr (a : Option String) (b : String) : String :=
  match a with
  | some s => if s = "" then b else s
  | none => b

/-- A line item of the inbound Shopify order payload. The twelve fields
read by the transformer are typed; any other field of the raw JSON payload
(none of them is ever read by the code) is kept in `extraFields`. -/
structure ShopifyLineItem where
  name : Option String
  title : Option String
  quantity : Int
  price : Option String
  sku : Option String
  product_id : Option Int
  variant_id : Option Int
  grams : Option Int
  vendor : Option String
  requires_shipping : Option Bool
  taxable : Option Bool
  gift_card : Option Bool
  extraFields : List (String × String)

/-- The inbound Shopify order payload. The allow-listed fields read by
`transformOrderToNotification` are typed; the customer-identifying fields
and `extraFields` represent everything else the raw webhook JSON may
carry (the transformer never reads any of them). -/
structure ShopifyOrder where
  created_at : Option String
  currency : Option String
  total_price : Option String
  subtotal_price : Option String
  total_tax : Option String
  total_discounts : Option String
  line_items : Option (List ShopifyLineItem)
  shop_domain : Option String
  test : Option Bool
  total_weight : Option Int
  tags : Option String
  source_name : Option String
  customer : Option String
  email : Option String
  phone : Option String
  billing_address : Option String
  shipping_address : Option String
  payment_details : Option String
  browser_ip : Option String
  extraFields : List (String × String)

/-- `OrderNotificationLineItem` of the publisher helper. `image` holds
whatever the optional chain over the GraphQL response produced (`none`
models JavaScript `undefined`, i.e. the field is absent). -/
structure OrderNotificationLineItem where
  name : Option String
  title : Option String
  quantity : Int
  price : Option String
  sku : Option String
  product_id : Option Int
  variant_id : Option Int
  grams : Option Int
  vendor : Option String
  requires_shipping : Option Bool
  taxable : Option Bool
  gift_card : Option Bool
  image : Option Json

/-- `OrderNotification` of the publisher helper: the PII-free record that
gets published. -/
structure OrderNotification where
  created_at : Option String
  currency : Option String
  total_price : Option String
  subtotal_price : Option String
  total_tax : Option String
  total_discounts : Option String
  item_count : Int
  line_items : List OrderNotificationLineItem
  shop : String
  test : Bool
  total_weight : Option Int
  tags : Option String
  source_name : Option String

/-- Outcome of one `admin.graphql(...)` call followed by
`response.json()`: either some step threw (network error, malformed
body, ...) or a parsed JSON body was obtained. -/
inductive GraphQLResult where
  | throws : GraphQLResult
  | ok : Json → GraphQLResult

/-- The Shopify admin GraphQL capability, abstracted as the response it
produces for each queried product id. -/
def AdminClient : Type := Int → GraphQLResult

/-- `fetchProductImage` of `hookdeck-publisher.ts`: queries the product,
extracts `data?.data?.product?.featuredImage?.url`, and absorbs any
thrown error into `undefined`. -/
def fetchProductImage (admin : AdminClient) (productId : Int) : Option Json :=
  match admin productId with
  | GraphQLResult.throws => none
  | GraphQLResult.ok body => jsOptChain body ["data", "product", "featuredImage", "url"]

/-- The per-item mapping inside `transformOrderToNotification`: the async
arrow function handed to `(order.line_items || []).map`. The guard
`admin && item.product_id` uses JavaScript truthiness, so a missing or
zero product id skips the lookup. -/
def transformLineItem (admin : Option AdminClient) (item : ShopifyLineItem) :
    OrderNotificationLineItem :=
  let image : Option Json :=
    match admin, item.product_id with
    | some client, some pid => if pid ≠ 0 then fetchProductImage client pid else none
    | _, _ => none
  { name := item.name
    title := item.title
    quantity := item.quantity
    price := item.price
    sku := item.sku
    product_id := item.product_id
    variant_id := item.variant_id
    grams := item.grams
    vendor := item.vendor
    requires_shipping := item.requires_shipping
    taxable := item.taxable
    gift_card := item.gift_card
    image := image }

/-- `transformOrderToNotification` of `hookdeck-publisher.ts`. `Promise.all`
over the mapped line items joins results positionally, which is `List.map`;
`item_count` is the `reduce` over the produced items; `shop` and `test` use
JavaScript `||` defaulting. -/
def transformOrderToNotification (order : ShopifyOrder) (shopDomain : Option String)
    (admin : Option AdminClient) : OrderNotification :=
  let lineItems : List OrderNotificationLineItem :=
    (order.line_items.getD []).map (transformLineItem admin)
  let itemCount : Int := lineItems.foldl (fun sum item => sum + item.quantity) 0
  { created_at := order.created_at
    currency := order.currency
    total_price := order.total_price
    subtotal_price := order.subtotal_price
    total_tax := order.total_tax
    total_discounts := order.total_discounts
    item_count := itemCount
    line_items := lineItems
    shop := jsOrStr shopDomain (jsOrStr order.shop_domain "")
    test := order.test.getD false
    total_weight := order.total_weight
    tags := order.tags
    source_name := order.source_name }

/-- The process environment, restricted to the variable the publisher
reads. `none` means the variable is absent. -/
structure Env where
  HOOKDECK_API_KEY : Option String

/-- An outbound HTTP request as assembled by the `fetch` call in
`publishToHookdeck`. The body is kept as the JSON value that
`JSON.stringify` serializes. -/
structure HttpRequest where
  url : String
  method : String
  headers : List (String × String)
  body : Json

/-- The outcome of a `fetch` call: the network call itself fails, or a
response arrives with a status, status text, body text, and the result of
`response.json()` (`none` when the body is not valid JSON and `.json()`
throws). -/
inductive FetchOutcome where
  | netError : FetchOutcome
  | response : Nat → String → String → Option Json → FetchOutcome

/-- The network, abstracted as the outcome each request produces. -/
def Network : Type := HttpRequest → FetchOutcome

/-- The errors `publishToHookdeck` can throw: the guard on the missing
API key, a rethrown network failure, the `Error` built from a non-2xx
response (carrying status, status text and body text), or a rethrown
`response.json()` failure on a 2xx response. -/
inductive PublishError where
  | missingApiKey : PublishError
  | networkError : PublishError
  | httpError : Nat → String → String → PublishError
  | invalidJsonBody : PublishError
deriving BEq

/-- JavaScript object-spread merge of the base headers with the
caller-supplied ones: keys of `base` keep their position but a duplicate
in `extra` overrides the value; keys only in `extra` are appended. -/
def mergeHeaders (base extra : List (String × String)) : List (String × String) :=
  base.map (fun p => (p.1, (((extra.find? (fun q => q.1 == p.1)).map Prod.snd).getD p.2))) ++
    extra.filter (fun q => ¬ base.any (fun p => p.1 == q.1))

/-- `fetch`'s `response.ok`: status in the inclusive range 200–299. -/
def responseOk (status : Nat) : Bool :=
  200 ≤ status && status ≤ 299

/-- The request assembled by `publishToHookdeck`: POST to the fixed
Publish API URL with content-type, bearer-credential and source-name
headers, any caller-supplied headers spread over them, and body
`JSON.stringify(\x7b data \x7d)`. -/
def buildPublishRequest (apiKey sourceName : String) (data : Json)
    (headers : List (String × String)) : HttpRequest :=
  { url := "https://hkdk.events/v1/publish"
    method := "POST"
    headers := mergeHeaders
      [("Content-Type", "application/json"),
       ("Authorization", "Bearer " ++ apiKey),
       ("X-Hookdeck-Source-Name", sourceName)] headers
    body := Json.obj [("data", data)] }

/-- `publishToHookdeck` of `hookdeck-publisher.ts`. Returns the list of
HTTP requests issued together with the thrown error or the parsed
response body. The guard `if (!apiKey)` fires on an absent or empty
key; a non-ok response throws an `Error` carrying status and body text;
errors from `fetch` or `response.json()` are rethrown by the `catch`. -/
def publishToHookdeck (net : Network) (env : Env) (sourceName : String) (data : Json)
    (headers : List (String × String)) : List HttpRequest × Except PublishError Json :=
  match env.HOOKDECK_API_KEY with
  | none => ([], Except.error PublishError.missingApiKey)
  | some apiKey =>
    if apiKey = "" then ([], Except.error PublishError.missingApiKey)
    else
      let req := buildPublishRequest apiKey sourceName data headers
      match net req with
      | FetchOutcome.netError => ([req], Except.error PublishError.networkError)
      | FetchOutcome.response status statusText bodyText jsonBody =>
        if responseOk status then
          match jsonBody with
          | some result => ([req], Except.ok result)
          | none => ([req], Except.error PublishError.invalidJsonBody)
        else ([req], Except.error (PublishError.httpError status statusText bodyText))

/-- A JSON object field that is dropped when the value is `undefined`
(`JSON.stringify` omits `undefined`-valued properties). -/
def optField (key : String) : Option Json → List (String × Json)
  | none => []
  | some v => [(key, v)]

/-- Optional string-valued JSON field. -/
def optStrField (key : String) (s : Option String) : List (String × Json) :=
  optField key (s.map Json.str)

/-- Optional integer-valued JSON field. -/
def optIntField (key : String) (i : Option Int) : List (String × Json) :=
  optField key (i.map Json.num)

/-- Optional boolean-valued JSON field. -/
def optBoolField (key : String) (b : Option Bool) : List (String × Json) :=
  optField key (b.map Json.bool)

/-- `JSON.stringify` view of an `OrderNotificationLineItem`, with keys in
the insertion order of the object literal in the source and
`undefined`-valued fields dropped. -/
def lineItemToJson (item : OrderNotificationLineItem) : Json :=
  Json.obj
    (optStrField "name" item.name ++
     optStrField "title" item.title ++
     [("quantity", Json.num item.quantity)] ++
     optStrField "price" item.price ++
     optStrField "sku" item.sku ++
     optIntField "product_id" item.product_id ++
     optIntField "variant_id" item.variant_id ++
     optIntField "grams" item.grams ++
     optStrField "vendor" item.vendor ++
     optBoolField "requires_shipping" item.requires_shipping ++
     optBoolField "taxable" item.taxable ++
     optBoolField "gift_card" item.gift_card ++
     optField "image" item.image)

/-- `JSON.stringify` view of an `OrderNotification`, with keys in the
insertion order of the object literal in the source and
`undefined`-valued fields dropped. -/
def notificationToJson (n : OrderNotification) : Json :=
  Json.obj
    (optStrField "created_at" n.created_at ++
     optStrField "currency" n.currency ++
     optStrField "total_price" n.total_price ++
     optStrField "subtotal_price" n.subtotal_price ++
     optStrField "total_tax" n.total_tax ++
     optStrField "total_discounts" n.total_discounts ++
     [("item_count", Json.num n.item_count),
      ("line_items", Json.arr (n.line_items.map lineItemToJson)),
      ("shop", Json.str n.shop),
      ("test", Json.bool n.test)] ++
     optIntField "total_weight" n.total_weight ++
     optStrField "tags" n.tags ++
     optStrField "source_name" n.source_name)

/-- `publishOrderNotification` of `hookdeck-publisher.ts`: transforms the
order and publishes the notification to the fixed source
`shopify-notifications-publish` (the `try`/`catch` rethrows errors
unchanged). -/
def publishOrderNotification (net : Network) (env : Env) (order : ShopifyOrder)
    (shopDomain : Option String) (admin : Option AdminClient) :
    List HttpRequest × Except PublishError Json :=
  let n := transformOrderToNotification order shopDomain admin
  publishToHookdeck net env "shopify-notifications-publish" (notificationToJson n) []

/-- The module-level guard at the top of the Hookdeck webhooks helper:
`if (!process.env.HOOKDECK_API_KEY) throw new Error("HOOKDECK_API_KEY is required")`,
run when the module is loaded. -/
def hookdeckModuleInit (env : Env) : Except String Unit :=
  if jsTruthyStr env.HOOKDECK_API_KEY then Except.ok ()
  else Except.error "HOOKDECK_API_KEY is required"

/-- Modelled from the spec: the server-start wiring is not in the
repository sources; per the spec the configuration is "read once at
process start" and "absence of the publish credential is fatal at
startup", so process start runs the helper module's top-level guard and
the process does not start when it throws. -/
def processStart (env : Env) : Except String Unit :=
  hookdeckModuleInit env

/-- What `authenticate.webhook(request)` hands to the route on success:
topic, shop domain (always a string), the optional admin GraphQL
capability, and the parsed order payload. -/
structure WebhookContext where
  topic : String
  shop : String
  admin : Option AdminClient
  payload : ShopifyOrder

/-- An inbound webhook delivery: whether its signature validates against
the shared secret, and the context it carries. -/
structure WebhookRequest where
  signatureValid : Bool
  context : WebhookContext

/-- Modelled from the spec: `authenticate.webhook` is framework code not
in the repository sources; per the spec it "requires the inbound
request's signature to validate against the process-wide shared secret;
failure yields an immediate rejection response and no further
processing", i.e. it throws a rejection response on an invalid
signature. -/
def authenticateWebhook (req : WebhookRequest) : Except Unit WebhookContext :=
  if req.signatureValid then Except.ok req.context else Except.error ()

/-- The components of the pipeline the route can invoke, recorded as a
trace by the embedded `action`. -/
inductive Component where
  | normalizer : Component
  | publisher : Component
deriving BEq

/-- How the webhook route ends: the rejection thrown by
`authenticate.webhook`, an empty success response, or the downstream
error rethrown to trigger gateway redelivery. -/
inductive ActionOutcome where
  | rejected : ActionOutcome
  | success : Json → ActionOutcome
  | errored : PublishError → ActionOutcome

namespace WebhooksOrdersCreate

/-- The `action` of the order-created webhook route: authenticate, then
`publishOrderNotification(payload, shop, admin)`; a thrown rejection from
`authenticate.webhook` stops everything; downstream errors are caught,
logged and rethrown. Returns the trace of invoked components, the HTTP
requests issued to the Publish API, and the outcome. -/
def action (net : Network) (env : Env) (req : WebhookRequest) :
    List Component × List HttpRequest × ActionOutcome :=
  match authenticateWebhook req with
  | Except.error _ => ([], [], ActionOutcome.rejected)
  | Except.ok ctx =>
    match publishOrderNotification net env ctx.payload (some ctx.shop) ctx.admin with
    | (reqs, Except.ok result) =>
      ([Component.normalizer, Component.publisher], reqs, ActionOutcome.success result)
    | (reqs, Except.error e) =>
      ([Component.normalizer, Component.publisher], reqs, ActionOutcome.errored e)

end WebhooksOrdersCreate

/-- The allow-listed projection of a line item: exactly the twelve fields
`transformOrderToNotification` reads from each item. -/
def lineItemAllowView (item : ShopifyLineItem) :=
  (item.name, item.title, item.quantity, item.price, item.sku, item.product_id,
   item.variant_id, item.grams, item.vendor, item.requires_shipping, item.taxable,
   item.gift_card)

/-- The allow-listed projection of an order: exactly the fields
`transformOrderToNotification` reads (with line items projected to their
allow-listed fields). -/
def orderAllowView (order : ShopifyOrder) :=
  (order.created_at, order.currency, order.total_price, order.subtotal_price,
   order.total_tax, order.total_discounts,
   order.line_items.map (List.map lineItemAllowView),
   order.shop_domain, order.test, order.total_weight, order.tags, order.source_name)

/-- A concrete line item (the spec's example scenario). -/
def sampleItem : ShopifyLineItem :=
  { name := some "Mug"
    title := some "Mug"
    quantity := 2
    price := some "14.99"
    sku := none
    product_id := some 555
    variant_id := none
    grams := none
    vendor := none
    requires_shipping := none
    taxable := none
    gift_card := none
    extraFields := [] }

/-- A concrete order carrying customer-identifying data. -/
def sampleOrder : ShopifyOrder :=
  { created_at := some "2024-12-01T00:00:00Z"
    currency := some "USD"
    total_price := some "29.99"
    subtotal_price := some "29.99"
    total_tax := some "0.00"
    total_discounts := some "0.00"
    line_items := some [sampleItem]
    shop_domain := some "shop.example.com"
    test := some false
    total_weight := none
    tags := none
    source_name := none
    customer := some "Jane Doe"
    email := some "a@b.com"
    phone := none
    billing_address := none
    shipping_address := none
    payment_details := none
    browser_ip := none
    extraFields := [] }

/-- `sampleOrder` with every non-allow-listed field changed. -/
def sampleOrderAltered : ShopifyOrder :=
  { sampleOrder with
    customer := none
    email := some "other@example.net"
    phone := some "+1-555-0100"
    billing_address := some "1 Main St"
    shipping_address := some "2 Oak Ave"
    payment_details := some "visa-4242"
    browser_ip := some "203.0.113.7"
    extraFields := [("checkout_token", "tok_123")] }

/-- A sample environment with a configured publish credential. -/
def sampleEnv : Env :=
  { HOOKDECK_API_KEY := some "test-key" }

/-- A GraphQL response body that is malformed in one spot: it carries an
explicit JSON `null` at the `url` field. -/
def nullUrlBody : Json :=
  Json.obj [("data", Json.obj [("product",
    Json.obj [("featuredImage", Json.obj [("url", Json.null)])])])]

/-- An admin client whose every lookup returns `nullUrlBody`. -/
def nullUrlClient : AdminClient :=
  fun _ => GraphQLResult.ok nullUrlBody

/-- A network on which every request yields a 2xx response whose body is
not valid JSON (`response.json()` throws). -/
def okInvalidJsonNet : Network :=
  fun _ => FetchOutcome.response 200 "OK" "not json" none

/-- A network on which every request yields a 500 response. -/
def net500 : Network :=
  fun _ => FetchOutcome.response 500 "Internal Server Error" "boom" none

/-- A webhook delivery context with no admin capability. -/
def sampleCtx : WebhookContext :=
  { topic := "orders/create"
    shop := "shop.example.com"
    admin := none
    payload := sampleOrder }

/-- A delivery whose signature does not validate. -/
def badSigReq : WebhookRequest :=
  { signatureValid := false, context := sampleCtx }

/-- A delivery whose signature validates, with no admin capability. -/
def goodSigReq : WebhookRequest :=
  { signatureValid := true, context := sampleCtx }

lemma transformLineItem_quantity (admin : Option AdminClient) (item : ShopifyLineItem) :
    (transformLineItem admin item).quantity = item.quantity := rfl

lemma transformLineItem_product_id (admin : Option AdminClient) (item : ShopifyLineItem) :
    (transformLineItem admin item).product_id = item.product_id := rfl

lemma foldl_add_quantity (xs : List OrderNotificationLineItem) (a : Int) :
    xs.foldl (fun sum item => sum + item.quantity) a
      = a + (xs.map (fun item => item.quantity)).sum := by
  induction xs generalizing a with
  | nil => simp
  | cons x xs ih => simp [List.foldl_cons, ih, add_assoc]

lemma transform_line_items (order : ShopifyOrder) (shopDomain : Option String)
    (admin : Option AdminClient) :
    (transformOrderToNotification order shopDomain admin).line_items
      = (order.line_items.getD []).map (transformLineItem admin) := rfl

/-- Claim C2: the `item_count` of the produced notification equals the
sum of the quantities of the input line items, 0 included when
`line_items` is empty or absent. -/
theorem transformOrderToNotification_item_count (order : ShopifyOrder)
    (shopDomain : Option String) (admin : Option AdminClient) :
    (transformOrderToNotification order shopDomain admin).item_count
      = ((order.line_items.getD []).map (fun item => item.quantity)).sum := by
  show ((order.line_items.getD []).map (transformLineItem admin)).foldl
      (fun sum item => sum + item.quantity) 0 = _
  rw [foldl_add_quantity, List.map_map]
  have hfun : ((fun item : OrderNotificationLineItem => item.quantity) ∘ transformLineItem admin)
      = (fun item : ShopifyLineItem => item.quantity) := funext (fun _ => rfl)
  rw [hfun, zero_add]

/-- Claim C9: the produced `line_items` has the same length as the input
sequence, and the item at each position is derived from the input item
at the same position (the positional join of `Promise.all`). -/
theorem transformOrderToNotification_positional (order : ShopifyOrder)
    (shopDomain : Option String) (admin : Option AdminClient) :
    (transformOrderToNotification order shopDomain admin).line_items.length
        = (order.line_items.getD []).length ∧
      ∀ i : Nat, (transformOrderToNotification order shopDomain admin).line_items[i]?
        = ((order.line_items.getD [])[i]?).map (transformLineItem admin) := by
  refine ⟨?_, ?_⟩
  · rw [transform_line_items]; exact List.length_map _ _
  · intro i; rw [transform_line_items]; exact List.getElem?_map _ _ i

lemma transformLineItem_congr (admin : Option AdminClient) (x y : ShopifyLineItem)
    (h : lineItemAllowView x = lineItemAllowView y) :
    transformLineItem admin x = transformLineItem admin y := by
  simp only [lineItemAllowView, Prod.mk.injEq] at h
  obtain ⟨h1, h2, h3, h4, h5, h6, h7, h8, h9, h10, h11, h12⟩ := h
  simp [transformLineItem, h1, h2, h3, h4, h5, h6, h7, h8, h9, h10, h11, h12]

lemma map_transformLineItem_congr (admin : Option AdminClient)
    (xs ys : List ShopifyLineItem)
    (h : xs.map lineItemAllowView = ys.map lineItemAllowView) :
    xs.map (transformLineItem admin) = ys.map (transformLineItem admin) := by
  induction xs generalizing ys with
  | nil => cases ys <;> simp_all
  | cons x xs ih =>
    cases ys with
    | nil => simp at h
    | cons y ys =>
      simp only [List.map_cons, List.cons.injEq] at h ⊢
      exact ⟨transformLineItem_congr admin x y h.1, ih ys h.2⟩

/-- Claim C1: the notification depends only on the allow-listed fields of
the order — two inputs agreeing on the allow-listed view (and differing
arbitrarily in customer name, email, phone, addresses, payment details,
IP address, or any other field) produce identical notifications, so no
non-allow-listed value can reach the output. -/
theorem transformOrderToNotification_allowlist_only (o₁ o₂ : ShopifyOrder)
    (shopDomain : Option String) (admin : Option AdminClient)
    (h : orderAllowView o₁ = orderAllowView o₂) :
    transformOrderToNotification o₁ shopDomain admin
      = transformOrderToNotification o₂ shopDomain admin := by
  simp only [orderAllowView, Prod.mk.injEq] at h
  obtain ⟨h1, h2, h3, h4, h5, h6, h7, h8, h9, h10, h11, h12⟩ := h
  have hitems : (o₁.line_items.getD []).map (transformLineItem admin)
      = (o₂.line_items.getD []).map (transformLineItem admin) := by
    cases ho₁ : o₁.line_items with
    | none => cases ho₂ : o₂.line_items with
      | none => rfl
      | some ys => rw [ho₁, ho₂] at h7; simp at h7
    | some xs => cases ho₂ : o₂.line_items with
      | none => rw [ho₁, ho₂] at h7; simp at h7
      | some ys =>
        rw [ho₁, ho₂] at h7
        simp only [Option.map, Option.some.injEq] at h7
        simpa using map_transformLineItem_congr admin xs ys h7
  simp [transformOrderToNotification, h1, h2, h3, h4, h5, h6, h8, h9, h10, h11, h12,
    hitems]

/-- Witness for claim C1: `sampleOrder` and `sampleOrderAltered` differ
in every customer-identifying field yet produce the same notification. -/
theorem transformOrderToNotification_allowlist_only_witness :
    orderAllowView sampleOrder = orderAllowView sampleOrderAltered ∧
      transformOrderToNotification sampleOrder none none
        = transformOrderToNotification sampleOrderAltered none none :=
  ⟨rfl, transformOrderToNotification_allowlist_only sampleOrder sampleOrderAltered
    none none rfl⟩


/-- Counterexample for claim C3: a malformed lookup response that carries
an explicit JSON `null` at the `url` field makes the line item's image
field present with value `null` instead of absent. -/
theorem transform_image_null_counterexample :
    (transformOrderToNotification sampleOrder none (some nullUrlClient)).line_items.map
        (fun item => item.image) = [some Json.null] ∧
      (some Json.null : Option Json) ≠ none :=
  ⟨rfl, by simp⟩

/-- Claim C3 as amended: the transformation is total (it always returns a
notification), and a line item's image is either absent or the value the
optional chain extracted from a lookup response that actually arrived —
a thrown lookup, a missing capability, or a response without the url
path always leaves the field absent; only an arrived body with an
explicit value at the url path (including a malformed `null`) makes it
present. -/
theorem transform_image_best_effort (order : ShopifyOrder) (shopDomain : Option String)
    (admin : Option AdminClient) :
    ∀ item ∈ (transformOrderToNotification order shopDomain admin).line_items,
      item.image = none ∨
        ∃ client pid body, admin = some client ∧ item.product_id = some pid ∧
          client pid = GraphQLResult.ok body ∧
          item.image = jsOptChain body ["data", "product", "featuredImage", "url"] := by
  intro item hmem
  rw [transform_line_items, List.mem_map] at hmem
  obtain ⟨x, _, rfl⟩ := hmem
  cases admin with
  | none => left; rfl
  | some client =>
    cases hpid : x.product_id with
    | none => left; simp [transformLineItem, hpid]
    | some pid =>
      by_cases hz : pid = 0
      · left; simp [transformLineItem, hpid, hz]
      · cases hc : client pid with
        | throws => left; simp [transformLineItem, hpid, hz, fetchProductImage, hc]
        | ok body =>
          right
          refine ⟨client, pid, body, rfl, ?_, hc, ?_⟩
          · simp [transformLineItem, hpid]
          · simp [transformLineItem, hpid, hz, fetchProductImage, hc]

/-- Witness for the amended claim C3, at a lookup that throws: the image
is absent and the transformation still produced the item. -/
theorem transform_image_best_effort_witness :
    (transformLineItem (some (fun _ => GraphQLResult.throws)) sampleItem).image = none ∨
      ∃ client pid body,
        (some (fun _ => GraphQLResult.throws) : Option AdminClient) = some client ∧
        (transformLineItem (some (fun _ => GraphQLResult.throws)) sampleItem).product_id
          = some pid ∧
        client pid = GraphQLResult.ok body ∧
        (transformLineItem (some (fun _ => GraphQLResult.throws)) sampleItem).image
          = jsOptChain body ["data", "product", "featuredImage", "url"] :=
  transform_image_best_effort sampleOrder none (some (fun _ => GraphQLResult.throws))
    (transformLineItem (some (fun _ => GraphQLResult.throws)) sampleItem)
    (by rw [transform_line_items]; exact List.mem_singleton.mpr rfl)

/-- Counterexample for claim C4: a 2xx response whose body is not valid
JSON still makes `publishToHookdeck` fail (the rethrown
`response.json()` error), so failure is not exactly "non-2xx or network
failure". -/
theorem publishToHookdeck_fails_on_2xx_invalid_json :
    publishToHookdeck okInvalidJsonNet sampleEnv "shopify-notifications-publish"
        (Json.str "x") []
      = ([buildPublishRequest "test-key" "shopify-notifications-publish" (Json.str "x") []],
         Except.error PublishError.invalidJsonBody) ∧
      responseOk 200 = true :=
  ⟨rfl, rfl⟩

lemma publishToHookdeck_requests (net : Network) (env : Env) (sourceName : String)
    (data : Json) (headers : List (String × String)) (k : String)
    (hk : env.HOOKDECK_API_KEY = some k) (hne : k ≠ "") :
    (publishToHookdeck net env sourceName data headers).1
      = [buildPublishRequest k sourceName data headers] := by
  unfold publishToHookdeck
  rw [hk]
  simp only [hne, if_false]
  cases net (buildPublishRequest k sourceName data headers) with
  | netError => rfl
  | response status statusText bodyText jsonBody =>
    by_cases hok : responseOk status = true
    · cases jsonBody <;> simp [hok]
    · simp [hok]

/-- Claim C4 as amended: with the credential configured, the publish call
fails exactly when the network call fails, the endpoint returns a
non-2xx status, or a 2xx response body is not valid JSON; a non-2xx
failure carries the HTTP status, status text and body; a success returns
the parsed response body, never a partial result. -/
theorem publishToHookdeck_error_characterization (net : Network) (env : Env)
    (sourceName : String) (data : Json) (headers : List (String × String)) (k : String)
    (hk : env.HOOKDECK_API_KEY = some k) (hne : k ≠ "") :
    (net (buildPublishRequest k sourceName data headers) = FetchOutcome.netError →
        (publishToHookdeck net env sourceName data headers).2
          = Except.error PublishError.networkError) ∧
      ∀ status statusText bodyText jsonBody,
        net (buildPublishRequest k sourceName data headers)
            = FetchOutcome.response status statusText bodyText jsonBody →
          (responseOk status = false →
            (publishToHookdeck net env sourceName data headers).2
              = Except.error (PublishError.httpError status statusText bodyText)) ∧
          (responseOk status = true → jsonBody = none →
            (publishToHookdeck net env sourceName data headers).2
              = Except.error PublishError.invalidJsonBody) ∧
          (responseOk status = true → ∀ j, jsonBody = some j →
            (publishToHookdeck net env sourceName data headers).2 = Except.ok j) := by
  constructor
  · intro hnet
    unfold publishToHookdeck
    rw [hk]
    simp only [hne, if_false]
    rw [hnet]
  · intro status statusText bodyText jsonBody hnet
    refine ⟨?_, ?_, ?_⟩
    · intro hok
      unfold publishToHookdeck
      rw [hk]
      simp only [hne, if_false]
      rw [hnet]
      simp [hok]
    · intro hok hjb
      unfold publishToHookdeck
      rw [hk]
      simp only [hne, if_false]
      rw [hnet]
      simp [hok, hjb]
    · intro hok j hjb
      unfold publishToHookdeck
      rw [hk]
      simp only [hne, if_false]
      rw [hnet]
      simp [hok, hjb]

/-- Witness for the amended claim C4: on a network answering 500, the
publish call fails with the error carrying status and body. -/
theorem publishToHookdeck_error_characterization_witness :
    (publishToHookdeck net500 sampleEnv "shopify-notifications-publish" Json.null []).2
      = Except.error (PublishError.httpError 500 "Internal Server Error" "boom") :=
  ((publishToHookdeck_error_characterization net500 sampleEnv
      "shopify-notifications-publish" Json.null [] "test-key" rfl (by decide)).2
    500 "Internal Server Error" "boom" none rfl).1 rfl

/-- Claim C5: a delivery whose signature does not validate is rejected
immediately — no component runs, no request is issued, and the outcome
is the rejection thrown by `authenticate.webhook`. -/
theorem action_rejects_invalid_signature (net : Network) (env : Env)
    (req : WebhookRequest) (h : req.signatureValid = false) :
    WebhooksOrdersCreate.action net env req = ([], [], ActionOutcome.rejected) := by
  unfold WebhooksOrdersCreate.action authenticateWebhook
  rw [h]
  rfl

/-- Witness for claim C5: the concrete bad-signature delivery is
rejected with nothing invoked. -/
theorem action_rejects_invalid_signature_witness :
    WebhooksOrdersCreate.action (fun _ => FetchOutcome.netError) sampleEnv badSigReq
      = ([], [], ActionOutcome.rejected) :=
  action_rejects_invalid_signature (fun _ => FetchOutcome.netError) sampleEnv badSigReq rfl

lemma action_valid_signature (net : Network) (env : Env) (req : WebhookRequest)
    (h : req.signatureValid = true) :
    WebhooksOrdersCreate.action net env req
      = (match publishOrderNotification net env req.context.payload
          (some req.context.shop) req.context.admin with
        | (reqs, Except.ok result) =>
          ([Component.normalizer, Component.publisher], reqs, ActionOutcome.success result)
        | (reqs, Except.error e) =>
          ([Component.normalizer, Component.publisher], reqs,
            ActionOutcome.errored e)) := by
  obtain ⟨sv, ctx⟩ := req
  simp only at h
  subst h
  rfl

/-- Claim C6: an authenticated delivery without an admin capability is
not an error — the normalizer and publisher still run, the publish
request for the transformed notification is issued, and every line
item's image field is absent. -/
theorem action_publishes_without_admin (net : Network) (env : Env)
    (req : WebhookRequest) (k : String) (hsig : req.signatureValid = true)
    (hadm : req.context.admin = none) (hk : env.HOOKDECK_API_KEY = some k)
    (hne : k ≠ "") :
    (WebhooksOrdersCreate.action net env req).1
        = [Component.normalizer, Component.publisher] ∧
      (WebhooksOrdersCreate.action net env req).2.1
        = [buildPublishRequest k "shopify-notifications-publish"
            (notificationToJson (transformOrderToNotification req.context.payload
              (some req.context.shop) none)) []] ∧
      ∀ item ∈ (transformOrderToNotification req.context.payload
          (some req.context.shop) none).line_items, item.image = none := by
  have hreqs := publishToHookdeck_requests net env "shopify-notifications-publish"
    (notificationToJson (transformOrderToNotification req.context.payload
      (some req.context.shop) none)) [] k hk hne
  have haction : WebhooksOrdersCreate.action net env req
      = (match publishOrderNotification net env req.context.payload
          (some req.context.shop) none with
        | (reqs, Except.ok result) =>
          ([Component.normalizer, Component.publisher], reqs, ActionOutcome.success result)
        | (reqs, Except.error e) =>
          ([Component.normalizer, Component.publisher], reqs,
            ActionOutcome.errored e)) := by
    rw [action_valid_signature net env req hsig, hadm]
  refine ⟨?_, ?_, ?_⟩
  · rw [haction]
    unfold publishOrderNotification
    rcases hsplit : publishToHookdeck net env "shopify-notifications-publish"
        (notificationToJson (transformOrderToNotification req.context.payload
          (some req.context.shop) none)) [] with ⟨reqs, res⟩
    cases res <;> simp [hsplit]
  · rw [haction]
    unfold publishOrderNotification
    rcases hsplit : publishToHookdeck net env "shopify-notifications-publish"
        (notificationToJson (transformOrderToNotification req.context.payload
          (some req.context.shop) none)) [] with ⟨reqs, res⟩
    rw [hsplit] at hreqs
    cases res <;> simp [hsplit] <;> exact hreqs
  · intro item hmem
    rw [transform_line_items, List.mem_map] at hmem
    obtain ⟨x, _, rfl⟩ := hmem
    rfl

/-- Witness for claim C6: a concrete authenticated admin-less delivery
invokes both components, publishes the transformed notification, and
carries no image on any line item. -/
theorem action_publishes_without_admin_witness :
    (WebhooksOrdersCreate.action net500 sampleEnv goodSigReq).1
        = [Component.normalizer, Component.publisher] ∧
      (WebhooksOrdersCreate.action net500 sampleEnv goodSigReq).2.1
        = [buildPublishRequest "test-key" "shopify-notifications-publish"
            (notificationToJson (transformOrderToNotification goodSigReq.context.payload
              (some goodSigReq.context.shop) none)) []] ∧
      ∀ item ∈ (transformOrderToNotification goodSigReq.context.payload
          (some goodSigReq.context.shop) none).line_items, item.image = none :=
  action_publishes_without_admin net500 sampleEnv goodSigReq "test-key" rfl rfl rfl
    (by decide)

lemma mergeHeaders_nil (base : List (String × String)) :
    mergeHeaders base [] = base := by
  unfold mergeHeaders
  simp

/-- Claim C7: with the credential configured, every invocation of
`publishOrderNotification` issues exactly one HTTP POST to the fixed
Publish API endpoint, with the JSON content type, the bearer credential
and the `shopify-notifications-publish` routing header, and with body
exactly the object pairing `data` with the notification JSON. -/
theorem publishOrderNotification_single_post (net : Network) (env : Env)
    (order : ShopifyOrder) (shopDomain : Option String) (admin : Option AdminClient)
    (k : String) (hk : env.HOOKDECK_API_KEY = some k) (hne : k ≠ "") :
    ∃ r, (publishOrderNotification net env order shopDomain admin).1 = [r] ∧
      r.url = "https://hkdk.events/v1/publish" ∧
      r.method = "POST" ∧
      ("Content-Type", "application/json") ∈ r.headers ∧
      ("Authorization", "Bearer " ++ k) ∈ r.headers ∧
      ("X-Hookdeck-Source-Name", "shopify-notifications-publish") ∈ r.headers ∧
      r.body = Json.obj [("data",
        notificationToJson (transformOrderToNotification order shopDomain admin))] := by
  refine ⟨buildPublishRequest k "shopify-notifications-publish"
    (notificationToJson (transformOrderToNotification order shopDomain admin)) [],
    ?_, rfl, rfl, ?_, ?_, ?_, rfl⟩
  · unfold publishOrderNotification
    exact publishToHookdeck_requests net env "shopify-notifications-publish"
      (notificationToJson (transformOrderToNotification order shopDomain admin)) []
      k hk hne
  · simp [buildPublishRequest, mergeHeaders_nil]
  · simp [buildPublishRequest, mergeHeaders_nil]
  · simp [buildPublishRequest, mergeHeaders_nil]

/-- Witness for claim C7 at a concrete order, environment and network. -/
theorem publishOrderNotification_single_post_witness :
    ∃ r, (publishOrderNotification net500 sampleEnv sampleOrder none none).1 = [r] ∧
      r.url = "https://hkdk.events/v1/publish" ∧
      r.method = "POST" ∧
      ("Content-Type", "application/json") ∈ r.headers ∧
      ("Authorization", "Bearer " ++ "test-key") ∈ r.headers ∧
      ("X-Hookdeck-Source-Name", "shopify-notifications-publish") ∈ r.headers ∧
      r.body = Json.obj [("data",
        notificationToJson (transformOrderToNotification sampleOrder none none))] :=
  publishOrderNotification_single_post net500 sampleEnv sampleOrder none none
    "test-key" rfl (by decide)

/-- Claim C8: with the publish credential absent from the environment,
process start fails fatally on the helper module's guard, and a publish
call could never issue a request anyway — it throws before contacting
the network. -/
theorem missing_api_key_fatal (env : Env) (h : env.HOOKDECK_API_KEY = none) :
    processStart env = Except.error "HOOKDECK_API_KEY is required" ∧
      ∀ net sourceName data headers,
        publishToHookdeck net env sourceName data headers
          = ([], Except.error PublishError.missingApiKey) := by
  constructor
  · unfold processStart hookdeckModuleInit jsTruthyStr
    rw [h]
    rfl
  · intro net sourceName data headers
    unfold publishToHookdeck
    rw [h]

/-- Witness for claim C8 at the empty environment. -/
theorem missing_api_key_fatal_witness :
    processStart { HOOKDECK_API_KEY := none } = Except.error "HOOKDECK_API_KEY is required" ∧
      publishToHookdeck net500 { HOOKDECK_API_KEY := none } "shopify-notifications-publish"
          Json.null []
        = ([], Except.error PublishError.missingApiKey) :=
  ⟨(missing_api_key_fatal { HOOKDECK_API_KEY := none } rfl).1,
   (missing_api_key_fatal { HOOKDECK_API_KEY := none } rfl).2 net500
     "shopify-notifications-publish" Json.null []⟩

/-- Counterexample for claim C10: with the empty string provided as the
`shopDomain` argument (a provided value the claim says wins), JavaScript
`||` treats it as absent and the order's `shop_domain` is used instead. -/
theorem transform_shop_empty_string_counterexample :
    (transformOrderToNotification sampleOrder (some "") none).shop = "shop.example.com" ∧
      ("shop.example.com" : String) ≠ "" :=
  ⟨rfl, by decide⟩

/-- Claim C10 as amended: `shop` is always a present string equal to the
`shopDomain` argument when provided and non-empty; an empty-string
argument counts as absent (JavaScript falsiness), falling back to the
order's `shop_domain` when present and non-empty, and to the empty
string otherwise; `test` is always a present boolean defaulting to
`false` when the order's flag is absent. -/
theorem transform_shop_test_defaults (order : ShopifyOrder) (shopDomain : Option String)
    (admin : Option AdminClient) :
    ((transformOrderToNotification order shopDomain admin).test = order.test.getD false) ∧
      (∀ s, shopDomain = some s → s ≠ "" →
        (transformOrderToNotification order shopDomain admin).shop = s) ∧
      ((shopDomain = none ∨ shopDomain = some "") →
        ∀ t, order.shop_domain = some t → t ≠ "" →
          (transformOrderToNotification order shopDomain admin).shop = t) ∧
      ((shopDomain = none ∨ shopDomain = some "") →
        (order.shop_domain = none ∨ order.shop_domain = some "") →
          (transformOrderToNotification order shopDomain admin).shop = "") := by
  refine ⟨rfl, ?_, ?_, ?_⟩
  · intro s hs hne
    show jsOrStr shopDomain (jsOrStr order.shop_domain "") = s
    rw [hs]
    simp [jsOrStr, hne]
  · intro hsd t ht hne
    show jsOrStr shopDomain (jsOrStr order.shop_domain "") = t
    rcases hsd with h | h <;> rw [h, ht] <;> simp [jsOrStr, hne]
  · intro hsd hod
    show jsOrStr shopDomain (jsOrStr order.shop_domain "") = ""
    rcases hsd with h | h <;> rcases hod with h2 | h2 <;> rw [h, h2] <;> simp [jsOrStr]

/-- Witness for the amended claim C10: a provided non-empty shop domain
wins, and the test flag of the sample order evaluates to `false`. -/
theorem transform_shop_test_defaults_witness :
    (transformOrderToNotification sampleOrder (some "other.shop") none).shop
        = "other.shop" ∧
      (transformOrderToNotification sampleOrder (some "other.shop") none).test = false :=
  ⟨(transform_shop_test_defaults sampleOrder (some "other.shop") none).2.1
      "other.shop" rfl (by decide),
   ((transform_shop_test_defaults sampleOrder (some "other.shop") none).1).trans rfl⟩
